import Mathlib

/-!
# Verification of the jewellery business-record backend

Shallow embedding of `src/backend/main.py` and `src/schemas.py`.

Modelling conventions:
* Python `float` money values are embedded as exact rationals `ℚ`;
  Python's `round(x, 2)` is embedded as `round2`, rounding to two decimal
  places with ties rounded up (the spec allows half-to-even or half-up as
  long as the choice is consistent and documented; we fix half-up, which is
  Mathlib's `round`).  Floating-point representation error is out of scope.
* Python `int` becomes `ℤ` (`qty`, `stock_qty`, `due_in_days`).
* `datetime` values become `ℤ` timestamps in seconds; `timedelta(days=n)`
  is `n * 86400` seconds.
* The Mongo document store (the external collaborator `db`) becomes a
  `Store` of association lists keyed by string ids; `find_one` is
  `List.lookup` (first match), `update_one` updates the first match,
  `insert_one` appends with a fresh id, `count_documents` is list length.
* FastAPI `HTTPException(status, detail)` becomes the `httpError`
  constructor; a Pydantic validation failure raised while constructing an
  `OrderItem` inside the handler (qty ≥ 1 and the other field bounds of
  `schemas.OrderItem`) becomes `orderItemSchemaError`.
* `render_invoice_html` (step 6 of the invoice generator) is presentational
  only — the spec reduces rendering to a formatting detail — so the `html`
  field is not modelled.
-/

/-- Python `round(x, 2)`: round to 2 decimal places (half-up in this model). -/
def round2 (x : ℚ) : ℚ := (round (x * 100) : ℚ) / 100

/-- A rational is an exact number of cents (an integer multiple of 1/100).
Every value produced by `round2` is of this form. -/
def Cents (x : ℚ) : Prop := ∃ n : ℤ, x = (n : ℚ) / 100

theorem cents_round2 (x : ℚ) : Cents (round2 x) := ⟨round (x * 100), rfl⟩

theorem cents_add {x y : ℚ} (hx : Cents x) (hy : Cents y) : Cents (x + y) := by
  obtain ⟨m, rfl⟩ := hx
  obtain ⟨n, rfl⟩ := hy
  exact ⟨m + n, by push_cast; ring⟩

theorem cents_zero : Cents 0 := ⟨0, by norm_num⟩

theorem cents_sum {l : List ℚ} (h : ∀ x ∈ l, Cents x) : Cents l.sum := by
  induction l with
  | nil => exact cents_zero
  | cons a t ih =>
    rw [List.sum_cons]
    exact cents_add (h a (List.mem_cons_self a t))
      (ih fun x hx => h x (List.mem_cons_of_mem a hx))

/-- Adding an exact number of cents commutes with `round2`. -/
theorem round2_add_cents (x : ℚ) {y : ℚ} (hy : Cents y) :
    round2 (x + y) = round2 x + y := by
  obtain ⟨n, rfl⟩ := hy
  have h : (x + (n : ℚ) / 100) * 100 = x * 100 + n := by field_simp
  rw [round2, h, round_add_int, round2]
  push_cast
  ring

/-- `round2` is the identity on exact cent amounts. -/
theorem round2_of_cents {x : ℚ} (hx : Cents x) : round2 x = x := by
  obtain ⟨n, rfl⟩ := hx
  have h : ((n : ℚ) / 100) * 100 = n := by field_simp
  rw [round2, h, round_intCast]

theorem round2_nonneg {x : ℚ} (hx : 0 ≤ x) : 0 ≤ round2 x := by
  have h : (0 : ℤ) ≤ round (x * 100) := by
    rw [round_eq]
    have : (0 : ℚ) ≤ x * 100 + 1 / 2 := by positivity
    exact Int.le_floor.mpr (by exact_mod_cast this)
  have h100 : (0 : ℚ) < 100 := by norm_num
  exact div_nonneg (by exact_mod_cast h) (le_of_lt h100)

/-- `calc_item_totals` from `src/backend/main.py` (lines 46–50):
```
subtotal = (unit_price + making_charges) * qty
tax_amount = round(subtotal * (tax_rate / 100.0), 2)
total = round(subtotal + tax_amount, 2)
return round(subtotal, 2), tax_amount, total
``` -/
def calc_item_totals (unit_price making_charges : ℚ) (qty : ℤ) (tax_rate : ℚ) :
    ℚ × ℚ × ℚ :=
  let subtotal := (unit_price + making_charges) * (qty : ℚ)
  let tax_amount := round2 (subtotal * (tax_rate / 100))
  let total := round2 (subtotal + tax_amount)
  (round2 subtotal, tax_amount, total)

/-- **C1.** For every valid input to the Pricing Calculator
(`unit_price ≥ 0`, `making_charges ≥ 0`, integer `qty ≥ 1`,
`tax_rate ∈ [0,100]`), the returned triple satisfies
`subtotal = round2((unit_price + making_charges) * qty)`,
`tax_amount = round2(unrounded_subtotal * tax_rate / 100)`, and
`total = subtotal + tax_amount`, with `total` also equal to `round2` of
that sum. -/
theorem C1_pricing_formulas (unit_price making_charges : ℚ) (qty : ℤ) (tax_rate : ℚ)
    (h1 : 0 ≤ unit_price) (h2 : 0 ≤ making_charges) (h3 : 1 ≤ qty)
    (h4 : 0 ≤ tax_rate) (h5 : tax_rate ≤ 100) :
    (calc_item_totals unit_price making_charges qty tax_rate).1
        = round2 ((unit_price + making_charges) * (qty : ℚ)) ∧
    (calc_item_totals unit_price making_charges qty tax_rate).2.1
        = round2 ((unit_price + making_charges) * (qty : ℚ) * tax_rate / 100) ∧
    (calc_item_totals unit_price making_charges qty tax_rate).2.2
        = (calc_item_totals unit_price making_charges qty tax_rate).1
          + (calc_item_totals unit_price making_charges qty tax_rate).2.1 ∧
    (calc_item_totals unit_price making_charges qty tax_rate).2.2
        = round2 ((calc_item_totals unit_price making_charges qty tax_rate).1
          + (calc_item_totals unit_price making_charges qty tax_rate).2.1) := by
  refine ⟨rfl, by rw [calc_item_totals]; ring_nf, ?_, ?_⟩
  · show round2 ((unit_price + making_charges) * (qty : ℚ)
        + round2 ((unit_price + making_charges) * (qty : ℚ) * (tax_rate / 100)))
      = round2 ((unit_price + making_charges) * (qty : ℚ))
        + round2 ((unit_price + making_charges) * (qty : ℚ) * (tax_rate / 100))
    exact round2_add_cents _ (cents_round2 _)
  · show round2 ((unit_price + making_charges) * (qty : ℚ)
        + round2 ((unit_price + making_charges) * (qty : ℚ) * (tax_rate / 100)))
      = round2 (round2 ((unit_price + making_charges) * (qty : ℚ))
        + round2 ((unit_price + making_charges) * (qty : ℚ) * (tax_rate / 100)))
    rw [round2_add_cents _ (cents_round2 _),
      round2_of_cents (cents_add (cents_round2 _) (cents_round2 _))]

/-- Witness for C1 at the spec's worked example:
`unit_price = 100`, `making_charges = 10`, `qty = 2`, `tax_rate = 3`. -/
theorem C1_pricing_formulas_witness :
    (calc_item_totals 100 10 2 3).1 = round2 ((100 + 10) * ((2 : ℤ) : ℚ)) ∧
    (calc_item_totals 100 10 2 3).2.1 = round2 ((100 + 10) * ((2 : ℤ) : ℚ) * 3 / 100) ∧
    (calc_item_totals 100 10 2 3).2.2
      = (calc_item_totals 100 10 2 3).1 + (calc_item_totals 100 10 2 3).2.1 ∧
    (calc_item_totals 100 10 2 3).2.2
      = round2 ((calc_item_totals 100 10 2 3).1 + (calc_item_totals 100 10 2 3).2.1) :=
  C1_pricing_formulas 100 10 2 3 (by norm_num) (by norm_num) (by norm_num)
    (by norm_num) (by norm_num)

/-! ## Data model (`src/schemas.py`) -/

/-- `schemas.Customer`. -/
structure Customer where
  name : String
  email : Option String := none
  phone : Option String := none
  address : Option String := none
deriving Repr, DecidableEq

/-- `schemas.Product`.  `stock_qty` is an `ℤ` because the Mongo `$inc`
update in `create_order` bypasses the Pydantic `ge=0` bound. -/
structure Product where
  sku : String
  name : String
  description : Option String := none
  category : Option String := none
  metal_type : Option String := none
  stone_type : Option String := none
  weight_grams : Option ℚ := none
  stock_qty : ℤ := 0
  unit_price : ℚ
  making_charges : ℚ := 0
  tax_rate : ℚ := 3
  tags : Option (List String) := none
deriving Repr, DecidableEq

/-- `schemas.OrderItem` (field values; the Pydantic bounds are
`OrderItem.fieldOk` below). -/
structure OrderItem where
  product_id : String
  sku : String
  name : String
  qty : ℤ
  unit_price : ℚ
  making_charges : ℚ
  tax_rate : ℚ
  subtotal : ℚ
  tax_amount : ℚ
  total : ℚ
deriving Repr, DecidableEq

/-- The Pydantic `Field` bounds of `schemas.OrderItem`: `qty ≥ 1`,
`unit_price ≥ 0`, `making_charges ≥ 0`, `0 ≤ tax_rate ≤ 100`,
`subtotal ≥ 0`, `tax_amount ≥ 0`, `total ≥ 0`.  Constructing an
`OrderItemSchema` in `create_order` raises a `ValidationError` unless
these all hold. -/
abbrev OrderItem.fieldOk (i : OrderItem) : Prop :=
  1 ≤ i.qty ∧ 0 ≤ i.unit_price ∧ 0 ≤ i.making_charges ∧
  0 ≤ i.tax_rate ∧ i.tax_rate ≤ 100 ∧ 0 ≤ i.subtotal ∧ 0 ≤ i.tax_amount ∧ 0 ≤ i.total

/-- `schemas.Order` (timestamps always set by `create_order`). -/
structure Order where
  order_number : String
  customer : Customer
  items : List OrderItem
  notes : Option String := none
  status : String := "created"
  subtotal : ℚ
  tax_total : ℚ
  grand_total : ℚ
  created_at : ℤ
  updated_at : ℤ
deriving Repr, DecidableEq

/-- `schemas.Invoice` (without the presentational `html` field). -/
structure Invoice where
  invoice_number : String
  order_id : String
  order_number : String
  billed_to : Customer
  items : List OrderItem
  subtotal : ℚ
  tax_total : ℚ
  grand_total : ℚ
  issue_date : ℤ
  due_date : ℤ
  notes : Option String := none
deriving Repr, DecidableEq

/-- The document store (`db`): association lists keyed by string ids,
with a counter supplying fresh ids for `insert_one`. -/
structure Store where
  products : List (String × Product) := []
  orders : List (String × Order) := []
  invoices : List (String × Invoice) := []
  nextId : ℕ := 0
deriving Repr, DecidableEq

/-! ## Request shapes and errors (`src/backend/main.py`) -/

/-- `CreateOrderItem` (main.py lines 142–144): no bound on `qty`. -/
structure CreateOrderItem where
  product_id : String
  qty : ℤ
deriving Repr, DecidableEq

/-- `CreateOrderRequest` (main.py lines 146–149). -/
structure CreateOrderRequest where
  customer : Customer
  items : List CreateOrderItem
  notes : Option String := none
deriving Repr, DecidableEq

/-- `InvoiceCreateRequest` (main.py lines 237–240); `due_in_days`
defaults to `0`, and an explicit JSON `null` is `none`. -/
structure InvoiceCreateRequest where
  issue_date : Option ℤ := none
  due_in_days : Option ℤ := some 0
  notes : Option String := none
deriving Repr, DecidableEq

/-- How a request fails: `httpError` is `HTTPException(status, detail)`;
`orderItemSchemaError` is the Pydantic `ValidationError` raised when
`OrderItemSchema(...)` is constructed with a field violating
`OrderItem.fieldOk` (it escapes the handler, it is not one of the
handler's own `HTTPException`s). -/
inductive ApiError where
  | httpError (status : ℕ) (detail : String)
  | orderItemSchemaError
deriving Repr, DecidableEq

/-! ## Sequence generators (main.py lines 152–154 and 243–245) -/

/-- Decimal digits of `n`, most significant first, as characters. -/
def digitChars (n : ℕ) : List Char := ((Nat.digits 10 n).reverse).map Nat.digitChar

/-- Python `f"{n:05d}"`: decimal digits left-padded with `'0'` to width 5
(numbers of more than five digits print in full). -/
def pad5 (n : ℕ) : String := ⟨List.replicate (5 - (digitChars n).length) '0' ++ digitChars n⟩

/-- `generate_order_number`: `count(order) + 1` formatted `ORD-%05d`. -/
def generate_order_number (s : Store) : String := "ORD-" ++ pad5 (s.orders.length + 1)

/-- `generate_invoice_number`: `count(invoice) + 1` formatted `INV-%05d`. -/
def generate_invoice_number (s : Store) : String := "INV-" ++ pad5 (s.invoices.length + 1)

/-! ## Order assembler (`create_order`, main.py lines 157–219) -/

/-- The `OrderItemSchema(...)` snapshot built at main.py lines 181–192:
the product's current sku/name/unit economics plus the three derived
fields from `calc_item_totals`. -/
def mkOrderItem (pid : String) (prod : Product) (q : ℤ) : OrderItem :=
  { product_id := pid, sku := prod.sku, name := prod.name, qty := q,
    unit_price := prod.unit_price, making_charges := prod.making_charges,
    tax_rate := prod.tax_rate,
    subtotal := (calc_item_totals prod.unit_price prod.making_charges q prod.tax_rate).1,
    tax_amount := (calc_item_totals prod.unit_price prod.making_charges q prod.tax_rate).2.1,
    total := (calc_item_totals prod.unit_price prod.making_charges q prod.tax_rate).2.2 }

/-- The validation loop of `create_order` (lines 167–193): per requested
item, `find_one` the product (fail 400 "Product not found: id" if absent),
fail 400 "Insufficient stock for name" if `stock_qty < qty`, then build the
`OrderItemSchema` snapshot from the product's current unit economics via
`calc_item_totals` (Pydantic validates its field bounds when the snapshot
is constructed). -/
def buildItems (s : Store) : List CreateOrderItem → Except ApiError (List OrderItem)
  | [] => Except.ok []
  | item :: rest =>
    match List.lookup item.product_id s.products with
    | none => Except.error (ApiError.httpError 400 ("Product not found: " ++ item.product_id))
    | some prod =>
      if prod.stock_qty < item.qty then
        Except.error (ApiError.httpError 400 ("Insufficient stock for " ++ prod.name))
      else if OrderItem.fieldOk (mkOrderItem item.product_id prod item.qty) then
        match buildItems s rest with
        | Except.ok tl => Except.ok (mkOrderItem item.product_id prod item.qty :: tl)
        | Except.error e => Except.error e
      else Except.error ApiError.orderItemSchemaError

/-- `insert_one` into the order collection: append under a fresh id. -/
def insertOrder (s : Store) (o : Order) : Store :=
  { s with orders := s.orders ++ [("oid-" ++ toString s.nextId, o)], nextId := s.nextId + 1 }

/-- `insert_one` into the invoice collection: append under a fresh id. -/
def insertInvoice (s : Store) (i : Invoice) : Store :=
  { s with invoices := s.invoices ++ [("iid-" ++ toString s.nextId, i)], nextId := s.nextId + 1 }

/-- `update_one({"_id": pid}, {"$inc": {"stock_qty": d}})`: add `d` to the
stock of the first document whose id matches. -/
def incStockFirst : List (String × Product) → String → ℤ → List (String × Product)
  | [], _, _ => []
  | (k, p) :: rest, pid, d =>
    if k = pid then (k, { p with stock_qty := p.stock_qty + d }) :: rest
    else (k, p) :: incStockFirst rest pid d

/-- `create_order` (main.py lines 157–219): reject empty item lists (400),
validate and price every item against the current store, aggregate totals,
generate the order number, insert the order, then decrement each item's
product stock with `$inc`.  Returns the created order (the re-read of the
inserted document) and the new store. -/
def create_order (s : Store) (payload : CreateOrderRequest) (now : ℤ) :
    Except ApiError (Order × Store) :=
  if payload.items.isEmpty then
    Except.error (ApiError.httpError 400 "No items in order")
  else
    match buildItems s payload.items with
    | Except.error e => Except.error e
    | Except.ok order_items =>
      let subtotal_total := (order_items.map OrderItem.subtotal).sum
      let tax_total := (order_items.map OrderItem.tax_amount).sum
      let grand_total := round2 (subtotal_total + tax_total)
      let order : Order :=
        { order_number := generate_order_number s,
          customer := payload.customer,
          items := order_items,
          notes := payload.notes,
          status := "created",
          subtotal := round2 subtotal_total,
          tax_total := round2 tax_total,
          grand_total := grand_total,
          created_at := now, updated_at := now }
      let s1 := insertOrder s order
      let s2 := payload.items.foldl
        (fun st it => { st with products := incStockFirst st.products it.product_id (-it.qty) }) s1
      Except.ok (order, s2)

/-! ## Invoice generator (`create_invoice`, main.py lines 295–323) -/

/-- `create_invoice` (main.py lines 295–323): find the order (404 if
absent), default `issue_date` to now, compute `due_date` (`issue_date`
when `due_in_days` is null or 0, else `issue_date + due_in_days` days),
snapshot the order's customer, items and totals verbatim, generate the
invoice number, insert and return the invoice. -/
def create_invoice (s : Store) (order_id : String) (payload : InvoiceCreateRequest) (now : ℤ) :
    Except ApiError (Invoice × Store) :=
  match List.lookup order_id s.orders with
  | none => Except.error (ApiError.httpError 404 "Order not found")
  | some order =>
    let issue_date := payload.issue_date.getD now
    let due_date :=
      match payload.due_in_days with
      | none => issue_date
      | some d => if d = 0 then issue_date else issue_date + d * 86400
    let inv : Invoice :=
      { invoice_number := generate_invoice_number s,
        order_id := order_id,
        order_number := order.order_number,
        billed_to := order.customer,
        items := order.items,
        subtotal := order.subtotal,
        tax_total := order.tax_total,
        grand_total := order.grand_total,
        issue_date := issue_date,
        due_date := due_date,
        notes := payload.notes }
    Except.ok (inv, insertInvoice s inv)

/-! ## Sequence-label arithmetic -/

/-- Numeric value of a decimal digit character. -/
def digitVal (c : Char) : ℕ := c.toNat - 48

/-- Numeric value of a big-endian decimal digit string. -/
def strVal (l : List Char) : ℕ := l.foldl (fun a c => 10 * a + digitVal c) 0

theorem digitVal_digitChar : ∀ d < 10, digitVal (Nat.digitChar d) = d := by decide

theorem strVal_replicate_zero (k : ℕ) (rest : List Char) :
    strVal (List.replicate k '0' ++ rest) = strVal rest := by
  induction k with
  | zero => rfl
  | succ n ih =>
    rw [List.replicate_succ, List.cons_append]
    exact ih

theorem strVal_digits (l : List ℕ) (h : ∀ d ∈ l, d < 10) :
    strVal ((l.reverse).map Nat.digitChar) = Nat.ofDigits 10 l := by
  induction l with
  | nil => rfl
  | cons d t ih =>
    have hd : digitVal (Nat.digitChar d) = d :=
      digitVal_digitChar d (h d (List.mem_cons_self d t))
    have ht := ih (fun x hx => h x (List.mem_cons_of_mem d hx))
    rw [List.reverse_cons, List.map_append]
    rw [strVal, List.foldl_append]
    show 10 * strVal ((t.reverse).map Nat.digitChar) + digitVal (Nat.digitChar d)
      = Nat.ofDigits 10 (d :: t)
    rw [ht, hd, Nat.ofDigits_cons]
    ring

theorem strVal_pad5 (n : ℕ) : strVal (pad5 n).data = n := by
  show strVal (List.replicate (5 - (digitChars n).length) '0' ++ digitChars n) = n
  rw [strVal_replicate_zero]
  show strVal (((Nat.digits 10 n).reverse).map Nat.digitChar) = n
  rw [strVal_digits _ (fun d hd => Nat.digits_lt_base (by norm_num) hd),
    Nat.ofDigits_digits]

theorem pad5_injective {m n : ℕ} (h : (pad5 m).data = (pad5 n).data) : m = n := by
  have h2 := congrArg strVal h
  rwa [strVal_pad5, strVal_pad5] at h2

theorem label_ne {lab : String} {m n : ℕ} (h : m ≠ n) : lab ++ pad5 m ≠ lab ++ pad5 n := by
  intro heq
  have h2 := congrArg String.data heq
  rw [String.data_append, String.data_append] at h2
  exact h (pad5_injective (List.append_cancel_left h2))

/-! ## Facts about the order-item snapshots -/

theorem mkOrderItem_subtotal_cents (pid : String) (prod : Product) (q : ℤ) :
    Cents (mkOrderItem pid prod q).subtotal := cents_round2 _

theorem mkOrderItem_tax_cents (pid : String) (prod : Product) (q : ℤ) :
    Cents (mkOrderItem pid prod q).tax_amount := cents_round2 _

theorem mkOrderItem_total_eq (pid : String) (prod : Product) (q : ℤ) :
    (mkOrderItem pid prod q).total
      = (mkOrderItem pid prod q).subtotal + (mkOrderItem pid prod q).tax_amount := by
  show round2 ((prod.unit_price + prod.making_charges) * (q : ℚ)
      + round2 ((prod.unit_price + prod.making_charges) * (q : ℚ) * (prod.tax_rate / 100)))
    = round2 ((prod.unit_price + prod.making_charges) * (q : ℚ))
      + round2 ((prod.unit_price + prod.making_charges) * (q : ℚ) * (prod.tax_rate / 100))
  exact round2_add_cents _ (cents_round2 _)

/-- Every item returned by the validation loop has an exact-cent subtotal
and tax amount, and its total is their exact sum. -/
theorem buildItems_mem {s : Store} {its : List CreateOrderItem} {l : List OrderItem}
    (h : buildItems s its = Except.ok l) :
    ∀ oi ∈ l, Cents oi.subtotal ∧ Cents oi.tax_amount ∧ oi.total = oi.subtotal + oi.tax_amount := by
  induction its generalizing l with
  | nil =>
    injection h with h
    subst h
    intro oi hoi
    exact absurd hoi (List.not_mem_nil oi)
  | cons item rest ih =>
    rw [buildItems] at h
    split at h
    · exact Except.noConfusion h
    next prod hp =>
      split at h
      · exact Except.noConfusion h
      · split at h
        · split at h
          next tl htl =>
            injection h with h
            subst h
            intro oi hoi
            rcases List.mem_cons.mp hoi with rfl | hmem
            · exact ⟨mkOrderItem_subtotal_cents _ _ _, mkOrderItem_tax_cents _ _ _,
                mkOrderItem_total_eq _ _ _⟩
            · exact ih htl oi hmem
          next e he => exact Except.noConfusion h
        · exact Except.noConfusion h

/-- If the validation loop succeeds, every requested item referenced an
existing product whose stock covered the requested quantity. -/
theorem buildItems_checks {s : Store} {its : List CreateOrderItem} {l : List OrderItem}
    (h : buildItems s its = Except.ok l) :
    ∀ it ∈ its, ∃ p, List.lookup it.product_id s.products = some p ∧
      ¬(p.stock_qty < it.qty) := by
  induction its generalizing l with
  | nil => intro it hit; exact absurd hit (List.not_mem_nil it)
  | cons item rest ih =>
    rw [buildItems] at h
    split at h
    · exact Except.noConfusion h
    next prod hp =>
      split at h
      · exact Except.noConfusion h
      next hstock =>
        split at h
        · split at h
          next tl htl =>
            intro it hit
            rcases List.mem_cons.mp hit with rfl | hmem
            · exact ⟨prod, hp, hstock⟩
            · exact ih htl it hmem
          next e he => exact Except.noConfusion h
        · exact Except.noConfusion h

/-- A requested item passes all three per-item checks of the validation
loop: its product exists, stock covers the quantity, and the resulting
snapshot satisfies the `OrderItem` field bounds. -/
def passesChecks (s : Store) (j : CreateOrderItem) : Prop :=
  ∃ p, List.lookup j.product_id s.products = some p ∧ ¬(p.stock_qty < j.qty) ∧
    OrderItem.fieldOk (mkOrderItem j.product_id p j.qty)

/-- An error of the validation loop propagates past any passing items in
front of it. -/
theorem buildItems_append_err {s : Store} {pre rest : List CreateOrderItem}
    (hpre : ∀ j ∈ pre, passesChecks s j) {e : ApiError}
    (he : buildItems s rest = Except.error e) :
    buildItems s (pre ++ rest) = Except.error e := by
  induction pre with
  | nil => simpa using he
  | cons j t ih =>
    obtain ⟨p, hp, hstock, hok⟩ := hpre j (List.mem_cons_self j t)
    have ih2 := ih (fun x hx => hpre x (List.mem_cons_of_mem j hx))
    rw [List.cons_append, buildItems]
    split
    next hnone => rw [hp] at hnone; exact Option.noConfusion hnone
    next prod hsome =>
      rw [hp] at hsome
      injection hsome with hsome
      subst hsome
      rw [if_neg hstock, if_pos hok, ih2]

/-! ## Shape of `create_order` results -/

/-- A successful `create_order` returns exactly the order assembled from
the validated items and the store after the insert and the stock
decrements. -/
theorem create_order_ok {s : Store} {payload : CreateOrderRequest} {now : ℤ}
    {o : Order} {s2 : Store}
    (h : create_order s payload now = Except.ok (o, s2)) :
    ∃ l, buildItems s payload.items = Except.ok l ∧
      o = { order_number := generate_order_number s, customer := payload.customer,
            items := l, notes := payload.notes, status := "created",
            subtotal := round2 ((l.map OrderItem.subtotal).sum),
            tax_total := round2 ((l.map OrderItem.tax_amount).sum),
            grand_total := round2 ((l.map OrderItem.subtotal).sum
              + (l.map OrderItem.tax_amount).sum),
            created_at := now, updated_at := now } ∧
      s2 = payload.items.foldl
        (fun st it => { st with products := incStockFirst st.products it.product_id (-it.qty) })
        (insertOrder s o) := by
  rw [create_order] at h
  split at h
  · exact Except.noConfusion h
  · split at h
    next e he => exact Except.noConfusion h
    next l hl =>
      injection h with h
      injection h with h1 h2
      exact ⟨l, hl, h1.symm, by rw [← h2, h1]⟩

/-- A failure of the validation loop is the failure of the whole
`create_order` call (nothing was inserted or decremented first). -/
theorem create_order_err {s : Store} {payload : CreateOrderRequest} {now : ℤ}
    {e : ApiError} (hne : payload.items ≠ [])
    (he : buildItems s payload.items = Except.error e) :
    create_order s payload now = Except.error e := by
  rw [create_order]
  rw [if_neg (by simp [List.isEmpty_iff, hne])]
  rw [he]

/-! ## Stock decrements -/

/-- Total quantity requested for one product id across all items of a
request (the net effect of the `$inc` loop on that product). -/
def reqQty (its : List CreateOrderItem) (pid : String) : ℤ :=
  ((its.filter (fun it => it.product_id == pid)).map CreateOrderItem.qty).sum

theorem reqQty_nil (pid : String) : reqQty [] pid = 0 := rfl

theorem reqQty_cons (it : CreateOrderItem) (rest : List CreateOrderItem) (pid : String) :
    reqQty (it :: rest) pid
      = (if it.product_id = pid then it.qty else 0) + reqQty rest pid := by
  rw [reqQty, List.filter_cons]
  by_cases h : it.product_id = pid
  · simp [h, reqQty]
  · simp [h, reqQty]

theorem lookup_incStockFirst (ps : List (String × Product)) (pid tgt : String) (d : ℤ) :
    List.lookup pid (incStockFirst ps tgt d)
      = if tgt = pid then
          (List.lookup pid ps).map (fun p => { p with stock_qty := p.stock_qty + d })
        else List.lookup pid ps := by
  induction ps with
  | nil =>
    rw [incStockFirst]
    simp only [List.lookup_nil, Option.map_none]
    split <;> rfl
  | cons kv rest ih =>
    obtain ⟨k, p⟩ := kv
    rw [incStockFirst]
    by_cases hk : k = tgt
    · subst hk
      rw [if_pos rfl]
      by_cases hpk : pid = k
      · subst hpk
        simp [List.lookup_cons]
      · have hbeq : (pid == k) = false := by simpa using hpk
        simp [List.lookup_cons, hbeq, Ne.symm hpk]
    · rw [if_neg hk]
      by_cases hpk : pid = k
      · subst hpk
        simp [List.lookup_cons, Ne.symm hk]
      · have hbeq : (pid == k) = false := by simpa using hpk
        simp [List.lookup_cons, hbeq, ih]

/-- The store-level decrement loop only rewrites the product collection. -/
theorem storeFold_products (its : List CreateOrderItem) (st : Store) :
    (its.foldl
      (fun st it => { st with products := incStockFirst st.products it.product_id (-it.qty) })
      st).products
      = its.foldl (fun acc it => incStockFirst acc it.product_id (-it.qty)) st.products := by
  induction its generalizing st with
  | nil => rfl
  | cons it rest ih => rw [List.foldl_cons, List.foldl_cons, ih]

/-- Net effect of the `$inc` loop: the first product stored under `pid`
loses exactly the total quantity requested for `pid`; everything else
(other products, other fields) is untouched. -/
theorem lookup_stock_foldl (its : List CreateOrderItem) (ps : List (String × Product))
    (pid : String) :
    List.lookup pid (its.foldl (fun acc it => incStockFirst acc it.product_id (-it.qty)) ps)
      = (List.lookup pid ps).map (fun p => { p with stock_qty := p.stock_qty - reqQty its pid }) := by
  induction its generalizing ps with
  | nil =>
    cases h : List.lookup pid ps <;> simp [h, reqQty_nil]
  | cons it rest ih =>
    rw [List.foldl_cons, ih, lookup_incStockFirst, reqQty_cons]
    by_cases h : it.product_id = pid
    · rw [if_pos h, if_pos h, Option.map_map]
      cases hp : List.lookup pid ps with
      | none => rfl
      | some p =>
        simp only [Option.map_some', Function.comp_apply]
        congr 1
        ring_nf
    · rw [if_neg h, if_neg h]
      simp

theorem sum_map_split {α : Type} (l : List α) (f g : α → ℚ) :
    (l.map (fun x => f x + g x)).sum = (l.map f).sum + (l.map g).sum := by
  induction l with
  | nil => simp
  | cons a t ih => simp [ih]; ring

/-- **C2.** For every order produced by a successful `createOrder` call,
the persisted order satisfies `grand_total = subtotal + tax_total` and
`grand_total = Σ item.total` over all order items, where `subtotal` is the
sum of the rounded item subtotals and `tax_total` the sum of the rounded
item tax amounts. -/
theorem C2_order_invariant {s : Store} {payload : CreateOrderRequest} {now : ℤ}
    {o : Order} {s2 : Store}
    (h : create_order s payload now = Except.ok (o, s2)) :
    o.subtotal = (o.items.map OrderItem.subtotal).sum ∧
    o.tax_total = (o.items.map OrderItem.tax_amount).sum ∧
    o.grand_total = o.subtotal + o.tax_total ∧
    o.grand_total = (o.items.map OrderItem.total).sum := by
  obtain ⟨l, hl, ho, -⟩ := create_order_ok h
  have hitems : o.items = l := by rw [ho]
  have hsubf : o.subtotal = round2 ((l.map OrderItem.subtotal).sum) := by rw [ho]
  have htaxf : o.tax_total = round2 ((l.map OrderItem.tax_amount).sum) := by rw [ho]
  have hgf : o.grand_total
      = round2 ((l.map OrderItem.subtotal).sum + (l.map OrderItem.tax_amount).sum) := by rw [ho]
  have hmem := buildItems_mem hl
  have hsub : Cents ((l.map OrderItem.subtotal).sum) := by
    refine cents_sum ?_
    intro x hx
    obtain ⟨oi, hoi, rfl⟩ := List.mem_map.mp hx
    exact (hmem oi hoi).1
  have htax : Cents ((l.map OrderItem.tax_amount).sum) := by
    refine cents_sum ?_
    intro x hx
    obtain ⟨oi, hoi, rfl⟩ := List.mem_map.mp hx
    exact (hmem oi hoi).2.1
  have h1 := round2_of_cents hsub
  have h2 := round2_of_cents htax
  have h3 := round2_of_cents (cents_add hsub htax)
  refine ⟨by rw [hsubf, hitems, h1], by rw [htaxf, hitems, h2], ?_, ?_⟩
  · rw [hgf, hsubf, htaxf, h1, h2, h3]
  · rw [hgf, hitems, h3]
    have hmap : l.map OrderItem.total = l.map (fun oi => oi.subtotal + oi.tax_amount) :=
      List.map_congr_left (fun oi hoi => (hmem oi hoi).2.2)
    rw [hmap, sum_map_split]

/-- **C5.** After every successful `createOrder` call, each product
referenced by an order item has its `stock_qty` decreased by exactly the
ordered quantity of that item (summed over the items that reference it),
and no other product and no other field is changed: the post-state lookup
of any product id equals the pre-state lookup with only `stock_qty`
reduced by the total quantity requested for that id (zero for ids the
request does not mention). -/
theorem C5_stock_frame {s : Store} {payload : CreateOrderRequest} {now : ℤ}
    {o : Order} {s2 : Store}
    (h : create_order s payload now = Except.ok (o, s2)) :
    ∀ pid, List.lookup pid s2.products
      = (List.lookup pid s.products).map
          (fun p => { p with stock_qty := p.stock_qty - reqQty payload.items pid }) := by
  obtain ⟨l, hl, ho, hs2⟩ := create_order_ok h
  intro pid
  rw [hs2, storeFold_products]
  have : (insertOrder s o).products = s.products := rfl
  rw [this, lookup_stock_foldl]

/-! ## Error behaviour of the order assembler -/

/-- **C3 (amended).** A `createOrder` request containing an item whose
requested qty exceeds its product's stock fails with the 400
"Insufficient stock" error — provided every *earlier* item passes its own
per-item checks (otherwise the earlier item's own failure, e.g. a missing
product, is reported instead).  The failure happens inside the validation
loop, before the order insert and before any `$inc`, so the store is
untouched (an `Except.error` result carries no successor store). -/
theorem C3_insufficient_stock {s : Store} {payload : CreateOrderRequest} {now : ℤ}
    {pre post : List CreateOrderItem} {item : CreateOrderItem} {p : Product}
    (hitems : payload.items = pre ++ item :: post)
    (hpre : ∀ j ∈ pre, passesChecks s j)
    (hp : List.lookup item.product_id s.products = some p)
    (hins : p.stock_qty < item.qty) :
    create_order s payload now
      = Except.error (ApiError.httpError 400 ("Insufficient stock for " ++ p.name)) := by
  have hb : buildItems s (item :: post)
      = Except.error (ApiError.httpError 400 ("Insufficient stock for " ++ p.name)) := by
    rw [buildItems]
    split
    next hnone => rw [hp] at hnone; exact Option.noConfusion hnone
    next prod hsome =>
      rw [hp] at hsome
      injection hsome with hsome
      subst hsome
      rw [if_pos hins]
  refine create_order_err (by rw [hitems]; simp) ?_
  rw [hitems]
  exact buildItems_append_err hpre hb

/-- **C7 (amended).** A `createOrder` request referencing a product id
absent from the store fails with `HTTPException(400, "Product not found:
id")` — status 400, not 404 — provided every earlier item passes its own
per-item checks.  Nothing is inserted or decremented. -/
theorem C7_missing_product {s : Store} {payload : CreateOrderRequest} {now : ℤ}
    {pre post : List CreateOrderItem} {item : CreateOrderItem}
    (hitems : payload.items = pre ++ item :: post)
    (hpre : ∀ j ∈ pre, passesChecks s j)
    (hmiss : List.lookup item.product_id s.products = none) :
    create_order s payload now
      = Except.error (ApiError.httpError 400 ("Product not found: " ++ item.product_id)) := by
  have hb : buildItems s (item :: post)
      = Except.error (ApiError.httpError 400 ("Product not found: " ++ item.product_id)) := by
    rw [buildItems]
    split
    next => rfl
    next prod hsome => rw [hmiss] at hsome; exact Option.noConfusion hsome
  refine create_order_err (by rw [hitems]; simp) ?_
  rw [hitems]
  exact buildItems_append_err hpre hb

/-- **C10.** For a `createOrder` request item with `qty ≤ 0` referencing
an existing product with `stock_qty ≥ 0`, the insufficient-stock guard
`stock_qty < qty` is false and does not reject the item; when such an
item is the first to be processed, the request is rejected only by the
`OrderItem` record's `qty ≥ 1` field bound (the Pydantic
`ValidationError`), not by the assembler's own
`HTTPException`s. -/
theorem C10_nonpositive_qty {s : Store} {payload : CreateOrderRequest} {now : ℤ}
    {item : CreateOrderItem} {rest : List CreateOrderItem} {p : Product}
    (hitems : payload.items = item :: rest)
    (hq : item.qty ≤ 0)
    (hp : List.lookup item.product_id s.products = some p)
    (hs : 0 ≤ p.stock_qty) :
    ¬(p.stock_qty < item.qty) ∧
    create_order s payload now = Except.error ApiError.orderItemSchemaError := by
  have hnl : ¬(p.stock_qty < item.qty) := by omega
  refine ⟨hnl, ?_⟩
  have hb : buildItems s (item :: rest) = Except.error ApiError.orderItemSchemaError := by
    rw [buildItems]
    split
    next hnone => rw [hp] at hnone; exact Option.noConfusion hnone
    next prod hsome =>
      rw [hp] at hsome
      injection hsome with hsome
      subst hsome
      have hnok : ¬ OrderItem.fieldOk (mkOrderItem item.product_id p item.qty) := by
        intro hok
        have h1 : (1 : ℤ) ≤ item.qty := hok.1
        omega
      rw [if_neg hnl, if_neg hnok]
  exact create_order_err (by rw [hitems]; simp) (by rw [hitems]; exact hb)

/-! ## Stock non-negativity -/

theorem lookup_mem {ps : List (String × Product)} {a : String} {b : Product}
    (h : List.lookup a ps = some b) : (a, b) ∈ ps := by
  induction ps with
  | nil => exact Option.noConfusion h
  | cons kv rest ih =>
    obtain ⟨k, v⟩ := kv
    rw [List.lookup_cons] at h
    cases hbeq : a == k with
    | true =>
      rw [hbeq] at h
      injection h with h
      subst h
      have : a = k := eq_of_beq hbeq
      subst this
      exact List.mem_cons_self _ _
    | false =>
      rw [hbeq] at h
      exact List.mem_cons_of_mem _ (ih h)

theorem reqQty_zero_of_not_mem {its : List CreateOrderItem} {pid : String}
    (h : pid ∉ its.map CreateOrderItem.product_id) : reqQty its pid = 0 := by
  induction its with
  | nil => rfl
  | cons j t ih =>
    have hj : j.product_id ≠ pid := by
      intro heq
      exact h (heq ▸ List.mem_map_of_mem CreateOrderItem.product_id (List.mem_cons_self j t))
    have ht : pid ∉ t.map CreateOrderItem.product_id := by
      intro hmem
      exact h (by rw [List.map_cons]; exact List.mem_cons_of_mem _ hmem)
    rw [reqQty_cons, if_neg hj, ih ht, zero_add]

theorem reqQty_single {its : List CreateOrderItem} {it : CreateOrderItem}
    (hnd : (its.map CreateOrderItem.product_id).Nodup)
    (hmem : it ∈ its) :
    reqQty its it.product_id = it.qty := by
  induction its with
  | nil => cases hmem
  | cons j t ih =>
    rw [List.map_cons, List.nodup_cons] at hnd
    rw [reqQty_cons]
    rcases List.mem_cons.mp hmem with rfl | hmem2
    · rw [if_pos rfl, reqQty_zero_of_not_mem hnd.1, add_zero]
    · have hj : j.product_id ≠ it.product_id := by
        intro heq
        exact hnd.1 (heq ▸ List.mem_map_of_mem CreateOrderItem.product_id hmem2)
      rw [if_neg hj, zero_add]
      exact ih hnd.2 hmem2

/-- **C6 (amended).** Starting from a store in which every product has
`stock_qty ≥ 0`, a successful `createOrder` whose items reference
pairwise-distinct product ids leaves every product's `stock_qty ≥ 0`.
(The distinctness hypothesis is necessary: a request repeating one
product id passes each stock check against the same un-decremented
snapshot and can drive the stock negative — see the counterexample.) -/
theorem C6_stock_nonneg {s : Store} {payload : CreateOrderRequest} {now : ℤ}
    {o : Order} {s2 : Store}
    (hnd : (payload.items.map CreateOrderItem.product_id).Nodup)
    (hpos : ∀ kp ∈ s.products, 0 ≤ kp.2.stock_qty)
    (h : create_order s payload now = Except.ok (o, s2)) :
    ∀ pid p, List.lookup pid s2.products = some p → 0 ≤ p.stock_qty := by
  intro pid p hlk
  obtain ⟨l, hl, ho, hs2⟩ := create_order_ok h
  rw [hs2, storeFold_products] at hlk
  have hip : (insertOrder s o).products = s.products := rfl
  rw [hip, lookup_stock_foldl] at hlk
  cases hq : List.lookup pid s.products with
  | none => rw [hq] at hlk; exact Option.noConfusion hlk
  | some q =>
    rw [hq] at hlk
    simp only [Option.map_some'] at hlk
    injection hlk with hlk
    subst hlk
    show 0 ≤ q.stock_qty - reqQty payload.items pid
    have hq0 : 0 ≤ q.stock_qty := hpos (pid, q) (lookup_mem hq)
    by_cases hmemp : pid ∈ payload.items.map CreateOrderItem.product_id
    · obtain ⟨it, hit, rfl⟩ := List.mem_map.mp hmemp
      rw [reqQty_single hnd hit]
      obtain ⟨p2, hp2, hstk⟩ := buildItems_checks hl it hit
      rw [hq] at hp2
      injection hp2 with hp2
      subst hp2
      omega
    · rw [reqQty_zero_of_not_mem hmemp]
      omega

/-! ## Invoice generation -/

/-- **C4.** Every invoice generated by `createInvoice` from an existing
order carries that order's items and totals verbatim: the invoice's item
list equals the order's item list (copied by value — in this embedding
all data is immutable, and the code rebuilds the item documents through
the `InvoiceSchema` constructor rather than sharing references), and
`subtotal`, `tax_total`, `grand_total` and the billed-to customer equal
the order's stored values, not recomputed ones. -/
theorem C4_invoice_snapshot {s : Store} {oid : String} {payload : InvoiceCreateRequest}
    {now : ℤ} {inv : Invoice} {s2 : Store} {order : Order}
    (hord : List.lookup oid s.orders = some order)
    (h : create_invoice s oid payload now = Except.ok (inv, s2)) :
    inv.items = order.items ∧ inv.billed_to = order.customer ∧
    inv.order_id = oid ∧ inv.order_number = order.order_number ∧
    inv.subtotal = order.subtotal ∧ inv.tax_total = order.tax_total ∧
    inv.grand_total = order.grand_total := by
  rw [create_invoice] at h
  split at h
  next hnone => exact Except.noConfusion h
  next ord hsome =>
    rw [hord] at hsome
    injection hsome with hsome
    subst hsome
    injection h with h
    injection h with h1 h2
    subst h1
    exact ⟨rfl, rfl, rfl, rfl, rfl, rfl, rfl⟩

/-- **C8 (amended).** For every invoice created by `createInvoice`,
`due_date` equals `issue_date` when `due_in_days` is absent (JSON null)
or zero, and equals `issue_date + due_in_days` days otherwise; and
`due_date ≥ issue_date` holds provided `due_in_days` is non-negative.
(Nothing validates `due_in_days ≥ 0`: a negative value yields
`due_date < issue_date` — see the counterexample.) -/
theorem C8_due_date {s : Store} {oid : String} {payload : InvoiceCreateRequest}
    {now : ℤ} {inv : Invoice} {s2 : Store}
    (h : create_invoice s oid payload now = Except.ok (inv, s2))
    (hnn : 0 ≤ payload.due_in_days.getD 0) :
    inv.due_date = (match payload.due_in_days with
      | none => inv.issue_date
      | some d => if d = 0 then inv.issue_date else inv.issue_date + d * 86400) ∧
    inv.issue_date ≤ inv.due_date := by
  rw [create_invoice] at h
  split at h
  next hnone => exact Except.noConfusion h
  next ord hsome =>
    injection h with h
    injection h with h1 h2
    subst h1
    refine ⟨rfl, ?_⟩
    show payload.issue_date.getD now
      ≤ (match payload.due_in_days with
          | none => payload.issue_date.getD now
          | some d => if d = 0 then payload.issue_date.getD now
              else payload.issue_date.getD now + d * 86400)
    cases hd : payload.due_in_days with
    | none => exact le_refl _
    | some d =>
      rw [hd] at hnn
      show payload.issue_date.getD now
        ≤ if d = 0 then payload.issue_date.getD now
            else payload.issue_date.getD now + d * 86400
      by_cases hd0 : d = 0
      · rw [if_pos hd0]
      · rw [if_neg hd0]
        have : (0 : ℤ) ≤ d := hnn
        omega

/-! ## Sequence generator -/

/-- **C9.** Under sequential calls, the sequence generators return the
collection count plus one, formatted as the prefixed zero-padded 5-digit
label (`ORD-%05d` for orders, `INV-%05d` for invoices); consequently two
sequential generations, each followed by a persist (which grows the
collection by one), never return the same label. -/
theorem C9_sequence (s t : Store)
    (ho : t.orders.length = s.orders.length + 1)
    (hi : t.invoices.length = s.invoices.length + 1) :
    generate_order_number s = "ORD-" ++ pad5 (s.orders.length + 1) ∧
    generate_invoice_number s = "INV-" ++ pad5 (s.invoices.length + 1) ∧
    generate_order_number s ≠ generate_order_number t ∧
    generate_invoice_number s ≠ generate_invoice_number t := by
  refine ⟨rfl, rfl, ?_, ?_⟩
  · rw [generate_order_number, generate_order_number, ho]
    exact label_ne (by omega)
  · rw [generate_invoice_number, generate_invoice_number, hi]
    exact label_ne (by omega)

/-! ## Concrete fixtures -/

/-- Example customer. -/
def custA : Customer := { name := "Asha" }

/-- Product with 10 in stock, matching the spec's worked pricing example. -/
def prodRing : Product :=
  { sku := "SKU1", name := "Ring", stock_qty := 10, unit_price := 100,
    making_charges := 10, tax_rate := 3 }

/-- Store holding only `prodRing` under id `p1`. -/
def storeA : Store := { products := [("p1", prodRing)] }

/-- Request: two units of `p1`. -/
def orderReqA : CreateOrderRequest :=
  { customer := custA, items := [{ product_id := "p1", qty := 2 }] }

/-- The priced line item `create_order` builds for `orderReqA`:
subtotal 220.00, tax 6.60, total 226.60. -/
def oiA : OrderItem :=
  { product_id := "p1", sku := "SKU1", name := "Ring", qty := 2, unit_price := 100,
    making_charges := 10, tax_rate := 3, subtotal := 220, tax_amount := 33 / 5,
    total := 1133 / 5 }

/-- The order `create_order` returns for `orderReqA` at time 0. -/
def orderA : Order :=
  { order_number := "ORD-" ++ pad5 1, customer := custA, items := [oiA], notes := none,
    status := "created", subtotal := 220, tax_total := 33 / 5, grand_total := 1133 / 5,
    created_at := 0, updated_at := 0 }

/-- The store after that order: stock decremented 10 → 8, order persisted. -/
def storeA2 : Store :=
  { products := [("p1", { prodRing with stock_qty := 8 })],
    orders := [("oid-" ++ toString (0 : ℕ), orderA)],
    invoices := [], nextId := 1 }

/-- Concrete successful run of the order assembler. -/
theorem run_orderA : create_order storeA orderReqA 0 = Except.ok (orderA, storeA2) := by
  norm_num [create_order, buildItems, mkOrderItem, calc_item_totals, OrderItem.fieldOk,
    storeA, orderReqA, prodRing, custA, oiA, orderA, storeA2, List.lookup_cons,
    generate_order_number, insertOrder, incStockFirst, round2, round_eq]

/-- Witness for C2 on the concrete run `run_orderA`. -/
theorem C2_order_invariant_witness :
    orderA.subtotal = (orderA.items.map OrderItem.subtotal).sum ∧
    orderA.tax_total = (orderA.items.map OrderItem.tax_amount).sum ∧
    orderA.grand_total = orderA.subtotal + orderA.tax_total ∧
    orderA.grand_total = (orderA.items.map OrderItem.total).sum :=
  C2_order_invariant run_orderA

/-- Witness for C5 on the concrete run `run_orderA`, at product `p1`:
stock goes from 10 to 10 − 2 = 8 and nothing else changes. -/
theorem C5_stock_frame_witness :
    List.lookup "p1" storeA2.products
      = (List.lookup "p1" storeA.products).map
          (fun p => { p with stock_qty := p.stock_qty - reqQty orderReqA.items "p1" }) :=
  C5_stock_frame run_orderA "p1"

/-- Witness for the amended C6 on the concrete run `run_orderA`. -/
theorem C6_stock_nonneg_witness :
    0 ≤ ({ prodRing with stock_qty := 8 } : Product).stock_qty :=
  C6_stock_nonneg (by decide) (by decide) run_orderA "p1"
    { prodRing with stock_qty := 8 } rfl

/-! ## Fixtures for the error paths -/

/-- Product with only 3 in stock. -/
def prodBand : Product :=
  { sku := "SKU2", name := "Band", stock_qty := 3, unit_price := 50,
    making_charges := 0, tax_rate := 3 }

/-- Store holding only `prodBand` under id `p2`. -/
def storeC3 : Store := { products := [("p2", prodBand)] }

/-- Request whose first item references a missing product and whose
second item has insufficient stock. -/
def orderReqC3 : CreateOrderRequest :=
  { customer := custA,
    items := [{ product_id := "px", qty := 1 }, { product_id := "p2", qty := 5 }] }

/-- Counterexample to C3 as stated: this request contains an item
(`p2`, qty 5 > stock 3) with insufficient stock, yet the call fails with
the missing-product error for `px`, not with the insufficient-stock
(ConflictError) message the claim requires. -/
theorem C3_counterexample :
    create_order storeC3 orderReqC3 0
      = Except.error (ApiError.httpError 400 "Product not found: px") ∧
    ApiError.httpError 400 "Product not found: px"
      ≠ ApiError.httpError 400 ("Insufficient stock for " ++ prodBand.name) := by
  constructor
  · rfl
  · decide

/-- Single-item request with insufficient stock (5 > 3). -/
def orderReqC3w : CreateOrderRequest :=
  { customer := custA, items := [{ product_id := "p2", qty := 5 }] }

/-- Witness for the amended C3: with no earlier items, the
insufficient-stock error is reported and nothing is persisted. -/
theorem C3_insufficient_stock_witness :
    create_order storeC3 orderReqC3w 0
      = Except.error (ApiError.httpError 400 ("Insufficient stock for " ++ prodBand.name)) :=
  @C3_insufficient_stock storeC3 orderReqC3w 0 [] []
    { product_id := "p2", qty := 5 } prodBand rfl (by simp) rfl (by decide)

/-- Single-item request for a product id not in the store. -/
def orderReqC7 : CreateOrderRequest :=
  { customer := custA, items := [{ product_id := "p9", qty := 1 }] }

/-- Counterexample to C7 as stated: a request referencing the missing id
`p9` fails with HTTP status 400, not the 404 the claim's error taxonomy
requires for NotFoundError. -/
theorem C7_counterexample :
    create_order storeA orderReqC7 0
      = Except.error (ApiError.httpError 400 "Product not found: p9") ∧
    (400 : ℕ) ≠ 404 := by
  constructor
  · rfl
  · decide

/-- Witness for the amended C7 (status 400, id named in the message). -/
theorem C7_missing_product_witness :
    create_order storeA orderReqC7 0
      = Except.error (ApiError.httpError 400 ("Product not found: " ++ "p9")) :=
  @C7_missing_product storeA orderReqC7 0 [] [] { product_id := "p9", qty := 1 }
    rfl (by simp) rfl

/-- Request with a non-positive quantity for an existing product. -/
def orderReqC10 : CreateOrderRequest :=
  { customer := custA, items := [{ product_id := "p1", qty := 0 }] }

/-- Witness for C10: qty 0 against stock 10 — the stock guard does not
fire; the Pydantic `qty ≥ 1` bound aborts the call. -/
theorem C10_nonpositive_qty_witness :
    ¬(prodRing.stock_qty < (0 : ℤ)) ∧
    create_order storeA orderReqC10 0 = Except.error ApiError.orderItemSchemaError :=
  @C10_nonpositive_qty storeA orderReqC10 0 { product_id := "p1", qty := 0 } [] prodRing
    rfl (by decide) rfl (by decide)

/-! ## Fixtures for the C6 counterexample (duplicated product id) -/

/-- Product with 5 in stock and trivial pricing. -/
def prodChain : Product :=
  { sku := "SKU3", name := "Chain", stock_qty := 5, unit_price := 1,
    making_charges := 0, tax_rate := 0 }

/-- Store holding only `prodChain` under id `p1`. -/
def storeC6 : Store := { products := [("p1", prodChain)] }

/-- Request ordering the same product twice, 3 + 3 = 6 > 5 in stock. -/
def orderReqC6 : CreateOrderRequest :=
  { customer := custA, items := [{ product_id := "p1", qty := 3 }, { product_id := "p1", qty := 3 }] }

/-- The line item built for each of the two duplicate request items. -/
def oiC6 : OrderItem :=
  { product_id := "p1", sku := "SKU3", name := "Chain", qty := 3, unit_price := 1,
    making_charges := 0, tax_rate := 0, subtotal := 3, tax_amount := 0, total := 3 }

/-- The order the duplicate-id request produces. -/
def orderC6 : Order :=
  { order_number := "ORD-" ++ pad5 1, customer := custA, items := [oiC6, oiC6], notes := none,
    status := "created", subtotal := 6, tax_total := 0, grand_total := 6,
    created_at := 0, updated_at := 0 }

/-- The store after the duplicate-id order: stock 5 − 3 − 3 = −1. -/
def storeC6b : Store :=
  { products := [("p1", { prodChain with stock_qty := -1 })],
    orders := [("oid-" ++ toString (0 : ℕ), orderC6)],
    invoices := [], nextId := 1 }

/-- Counterexample to C6 as stated: from a store where every stock is
non-negative, a single sequential `createOrder` whose items repeat one
product id succeeds (each check reads the un-decremented snapshot) and
drives that product's stock to −1. -/
theorem C6_counterexample :
    storeC6.products.all (fun kp => decide (0 ≤ kp.2.stock_qty)) = true ∧
    create_order storeC6 orderReqC6 0 = Except.ok (orderC6, storeC6b) ∧
    storeC6b.products.all (fun kp => decide (0 ≤ kp.2.stock_qty)) = false := by
  refine ⟨by decide, ?_, by decide⟩
  norm_num [create_order, buildItems, mkOrderItem, calc_item_totals, OrderItem.fieldOk,
    storeC6, orderReqC6, prodChain, custA, oiC6, orderC6, storeC6b, List.lookup_cons,
    generate_order_number, insertOrder, incStockFirst, round2, round_eq]

/-! ## Fixtures for invoice generation -/

/-- Store holding the persisted order `orderA` under id `o1`. -/
def storeB : Store := { orders := [("o1", orderA)] }

/-- Default invoice request (`due_in_days` defaults to 0). -/
def invReqB : InvoiceCreateRequest := {}

/-- The invoice `create_invoice` produces from `orderA` at time 7. -/
def invB : Invoice :=
  { invoice_number := "INV-" ++ pad5 1, order_id := "o1",
    order_number := "ORD-" ++ pad5 1, billed_to := custA, items := [oiA],
    subtotal := 220, tax_total := 33 / 5, grand_total := 1133 / 5,
    issue_date := 7, due_date := 7, notes := none }

/-- The store after that invoice is persisted. -/
def storeB2 : Store :=
  { products := [], orders := [("o1", orderA)],
    invoices := [("iid-" ++ toString (0 : ℕ), invB)], nextId := 1 }

/-- Concrete successful run of the invoice generator. -/
theorem run_invoiceB : create_invoice storeB "o1" invReqB 7 = Except.ok (invB, storeB2) := rfl

/-- Witness for C4 on the concrete run `run_invoiceB`. -/
theorem C4_invoice_snapshot_witness :
    invB.items = orderA.items ∧ invB.billed_to = orderA.customer ∧
    invB.order_id = "o1" ∧ invB.order_number = orderA.order_number ∧
    invB.subtotal = orderA.subtotal ∧ invB.tax_total = orderA.tax_total ∧
    invB.grand_total = orderA.grand_total :=
  C4_invoice_snapshot (show List.lookup "o1" storeB.orders = some orderA from rfl)
    run_invoiceB

/-- Witness for the amended C8 on the concrete run `run_invoiceB`
(`due_in_days = 0`, so `due_date = issue_date`). -/
theorem C8_due_date_witness :
    invB.due_date = (match invReqB.due_in_days with
      | none => invB.issue_date
      | some d => if d = 0 then invB.issue_date else invB.issue_date + d * 86400) ∧
    invB.issue_date ≤ invB.due_date :=
  C8_due_date run_invoiceB (by decide)

/-- Invoice request with a negative `due_in_days`. -/
def invReqNeg : InvoiceCreateRequest := { due_in_days := some (-1) }

/-- The invoice produced for `due_in_days = -1` at issue time 7:
`due_date = 7 - 86400 < issue_date`. -/
def invNeg : Invoice :=
  { invoice_number := "INV-" ++ pad5 1, order_id := "o1",
    order_number := "ORD-" ++ pad5 1, billed_to := custA, items := [oiA],
    subtotal := 220, tax_total := 33 / 5, grand_total := 1133 / 5,
    issue_date := 7, due_date := 7 + (-1) * 86400, notes := none }

/-- The store after the negative-due-date invoice is persisted. -/
def storeB2n : Store :=
  { products := [], orders := [("o1", orderA)],
    invoices := [("iid-" ++ toString (0 : ℕ), invNeg)], nextId := 1 }

/-- Counterexample to C8 as stated: nothing validates `due_in_days ≥ 0`,
so `due_in_days = -1` yields an invoice with `due_date < issue_date`. -/
theorem C8_counterexample :
    create_invoice storeB "o1" invReqNeg 7 = Except.ok (invNeg, storeB2n) ∧
    invNeg.due_date < invNeg.issue_date := by
  constructor
  · rfl
  · decide

/-! ## Fixtures for the sequence generator -/

/-- Empty store: zero orders, zero invoices. -/
def storeC9 : Store := {}

/-- Store after one order and one invoice were persisted. -/
def storeC9b : Store := { orders := [("o1", orderA)], invoices := [("i1", invB)] }

/-- Witness for C9 on concrete stores of sizes 0 and 1. -/
theorem C9_sequence_witness :
    generate_order_number storeC9 = "ORD-" ++ pad5 (storeC9.orders.length + 1) ∧
    generate_invoice_number storeC9 = "INV-" ++ pad5 (storeC9.invoices.length + 1) ∧
    generate_order_number storeC9 ≠ generate_order_number storeC9b ∧
    generate_invoice_number storeC9 ≠ generate_invoice_number storeC9b :=
  C9_sequence storeC9 storeC9b rfl rfl

/-- Concrete check that `pad5` renders python's `%05d`: the first label
number formats as `00001`, so the first order number is `ORD-00001`. -/
theorem pad5_one : pad5 1 = "00001" := by
  have h1 : Nat.digits 10 1 = [1] := by
    rw [Nat.digits_def' (by norm_num : 1 < 10) (by norm_num)]
    norm_num
  rw [pad5, digitChars, h1]
  decide
